import Mathlib

/-!
# Verification of the auth-amar session and preference stores

Shallow embedding of the state-and-persistence core of the repository:
the Session Store (`AuthContext`: `initializeAuth`, `login`, `signup`,
`logout`), the Preference Store (`ThemeContext`: `loadTheme`, `saveTheme`,
`toggleTheme`), and the storage helpers (`storage.ts`).

JavaScript strings are modelled as lists of characters (`JStr`), the
asynchronous key-value backend (`AsyncStorage`) as a partial map
`JStr → Option JStr`, and the possible outcomes of its fallible operations
as explicit outcome parameters. `JSON.parse` is an external builtin and is
modelled as an oracle `JStr → ParseResult` over a small JSON value type;
`Date.now().toString()` is modelled by an explicit clock argument rendered
in decimal.
-/

namespace AuthAmar

/-- A JavaScript string, modelled as its list of characters. -/
abbrev JStr := List Char

/-- The characters of a Lean string literal, for writing `JStr` constants. -/
def str (s : String) : JStr := s.data

/-! ## JavaScript builtins used by the source -/

/-- JS `s.split(sep)[0]` for a one-character separator: the part of `s`
before the first occurrence of `sep` (all of `s` when `sep` is absent). -/
def jsSplitFirst (sep : Char) (s : JStr) : JStr :=
  s.takeWhile (fun c => c != sep)

/-- JS `s.includes(c)` for a one-character argument. -/
def jsIncludes (c : Char) (s : JStr) : Bool :=
  s.contains c

/-- JS `s.trim()`: strip whitespace from both ends. -/
def jsTrim (s : JStr) : JStr :=
  ((s.dropWhile Char.isWhitespace).reverse.dropWhile Char.isWhitespace).reverse

/-- Little-endian decimal digits of `n`, with explicit fuel so that the
definition is structurally recursive and kernel-reducible. -/
def decDigitsAux : Nat → Nat → List Nat
  | 0, _ => []
  | fuel + 1, n => if n = 0 then [] else n % 10 :: decDigitsAux fuel (n / 10)

/-- JS `n.toString()` for a non-negative integer: its decimal digit string.
Models the `Date.now().toString()` id generator. -/
def jsNatRepr (n : Nat) : JStr :=
  if n = 0 then ['0'] else ((decDigitsAux n n).reverse.map Nat.digitChar)

/-- A JSON value, as produced by a successful `JSON.parse`. -/
inductive JsonValue where
  | null
  | bool (b : Bool)
  | num (n : Int)
  | jstr (s : JStr)
  | arr (elems : List JsonValue)
  | obj (fields : List (JStr × JsonValue))

/-- JS truthiness of a JSON value: `null`, `false`, `0` and `""` are falsy;
every array and object is truthy. -/
def JsonValue.truthy : JsonValue → Bool
  | .null => false
  | .bool b => b
  | .num n => n != 0
  | .jstr s => s != []
  | .arr _ => true
  | .obj _ => true

/-- Outcome of one `JSON.parse` call: an exception or a parsed value. -/
inductive ParseResult where
  | error
  | ok (v : JsonValue)

/-- An oracle giving the behaviour of `JSON.parse` on each string. -/
def ParseOracle := JStr → ParseResult

/-! ## The key-value backend (`AsyncStorage`) -/

/-- The persistent key-value store: a partial map from keys to strings. -/
def KVStore := JStr → Option JStr

/-- The empty store. -/
def kvEmpty : KVStore := fun _ => none

/-- `AsyncStorage.setItem` on the stored map. -/
def kvSet (st : KVStore) (k v : JStr) : KVStore :=
  fun k2 => if k2 = k then some v else st k2

/-- `AsyncStorage.removeItem` on the stored map. -/
def kvRemove (st : KVStore) (k : JStr) : KVStore :=
  fun k2 => if k2 = k then none else st k2

/-- Outcome of one fallible `AsyncStorage` read (`getItem`): the promise
rejects, or resolves with `null`, or resolves with a string. -/
inductive ReadOutcome where
  | failure
  | absent
  | value (s : JStr)

/-- Outcome of one fallible `AsyncStorage` write or removal. -/
inductive WriteOutcome where
  | ok
  | failure

/-- A non-failing `getItem` for key `k` against the current store contents. -/
def readKey (st : KVStore) (k : JStr) : ReadOutcome :=
  match st k with
  | some s => ReadOutcome.value s
  | none => ReadOutcome.absent

/-! ## Data model (`auth.types.ts`) -/

/-- `User`: `{ id, email, name }`, all strings. -/
structure User where
  id : JStr
  email : JStr
  name : JStr
deriving DecidableEq, Repr

/-- `AuthState`, generic in the type stored in the `user` field: the typed
operations produce `User` records, while the unvalidated restore path can
adopt an arbitrary parsed JSON value. -/
structure AuthState (U : Type) where
  user : Option U
  isLoading : Bool
  isAuthenticated : Bool
  isInitializing : Bool
deriving DecidableEq, Repr

/-- The state `AuthProvider` starts from:
`{ user: null, isLoading: false, isAuthenticated: false, isInitializing: true }`. -/
def initialAuthState (U : Type) : AuthState U :=
  ⟨none, false, false, true⟩

/-- `LoginCredentials`. -/
structure LoginCredentials where
  email : JStr
  password : JStr
deriving DecidableEq, Repr

/-- `SignupCredentials`. -/
structure SignupCredentials where
  name : JStr
  email : JStr
  password : JStr
deriving DecidableEq, Repr

/-- `AuthResponse`: `{ success, user?, error? }`. -/
structure AuthResponse where
  success : Bool
  user : Option User
  error : Option JStr
deriving DecidableEq, Repr

/-! ## Storage helpers (`src/utils/storage.ts`) -/

/-- The fixed auth key `AUTH_USER`. -/
def AUTH_USER_KEY : JStr := str "AUTH_USER"

/-- `JSON.stringify` on a `User` record. -/
def jsonStringifyUser (u : User) : JStr :=
  str "\x7b\"id\":\"" ++ u.id ++ str "\",\"email\":\"" ++ u.email ++
    str "\",\"name\":\"" ++ u.name ++ str "\"\x7d"

/-- `saveUserToStorage`: `setItem(AUTH_USER_KEY, JSON.stringify(user))`,
with any storage error caught and swallowed (the store is left unchanged). -/
def saveUserToStorage (st : KVStore) (u : User) (w : WriteOutcome) : KVStore :=
  match w with
  | .ok => kvSet st AUTH_USER_KEY (jsonStringifyUser u)
  | .failure => st

/-- `removeUserFromStorage`: `removeItem(AUTH_USER_KEY)`, with any storage
error caught and swallowed. -/
def removeUserFromStorage (st : KVStore) (w : WriteOutcome) : KVStore :=
  match w with
  | .ok => kvRemove st AUTH_USER_KEY
  | .failure => st

/-- `clearAuthStorage`: calls `removeUserFromStorage` (and catches, though
`removeUserFromStorage` never throws). -/
def clearAuthStorage (st : KVStore) (w : WriteOutcome) : KVStore :=
  removeUserFromStorage st w

/-- `loadUserFromStorage`: `getItem(AUTH_USER_KEY)`; when the result is a
truthy (non-empty) string it is fed to `JSON.parse` and the parsed value is
returned unvalidated (`as User` is a cast, not a check); an absent key, an
empty string, a read failure or a parse exception all yield `null`. -/
def loadUserFromStorage (read : ReadOutcome) (parse : ParseOracle) :
    Option JsonValue :=
  match read with
  | .failure => none
  | .absent => none
  | .value s =>
    if s ≠ [] then
      match parse s with
      | .ok v => some v
      | .error => none
    else none

/-! ## Session Store (`AuthContext`, `src/unnamed/part_000`) -/

/-- `initializeAuth`: the one-time startup restore. A truthy loaded value is
adopted wholesale as the user with `isAuthenticated: true`; otherwise only
`isInitializing` is cleared and the rest of the previous state is kept. -/
def initializeAuth (prev : AuthState JsonValue) (read : ReadOutcome)
    (parse : ParseOracle) : AuthState JsonValue :=
  match loadUserFromStorage read parse with
  | some v =>
    if v.truthy then
      ⟨some v, false, true, false⟩
    else
      { prev with isInitializing := false }
  | none => { prev with isInitializing := false }

/-- Result of one `login`/`signup` call: the store and state afterwards, the
returned `AuthResponse`, and the session states after each `setAuthState`
call inside the operation, in order. -/
structure OpResult where
  store : KVStore
  state : AuthState User
  response : AuthResponse
  trace : List (AuthState User)

/-- `login`: sets `isLoading: true`, validates (both fields non-empty, email
contains `'@'`), then on the mock-success path manufactures a user with
`id = Date.now().toString()` (clock value `t`), the input email, and name
`email.split('@')[0]`, sets the authenticated state, persists it
best-effort, and returns `{ success: true, user }`; a validation throw is
caught, clears `isLoading` and returns `{ success: false, error }`. -/
def login (st : KVStore) (prev : AuthState User) (c : LoginCredentials)
    (t : Nat) (w : WriteOutcome) : OpResult :=
  let s1 : AuthState User := { prev with isLoading := true }
  if c.email = [] ∨ c.password = [] then
    let s2 : AuthState User := { s1 with isLoading := false }
    ⟨st, s2, ⟨false, none, some (str "Email and password are required")⟩, [s1, s2]⟩
  else if ¬ jsIncludes '@' c.email then
    let s2 : AuthState User := { s1 with isLoading := false }
    ⟨st, s2, ⟨false, none, some (str "Please enter a valid email")⟩, [s1, s2]⟩
  else
    let u : User := ⟨jsNatRepr t, c.email, jsSplitFirst '@' c.email⟩
    let s2 : AuthState User := ⟨some u, false, true, false⟩
    ⟨saveUserToStorage st u w, s2, ⟨true, some u, none⟩, [s1, s2]⟩

/-- `signup`: sets `isLoading: true`, validates (all three fields non-empty,
email contains `'@'`, password length at least 6), then manufactures a user
with `id = Date.now().toString()` (clock value `t`), the input email and the
given name, sets the authenticated state, persists it best-effort, and
returns the response; a validation throw is caught, clears `isLoading` and
returns `{ success: false, error }`. -/
def signup (st : KVStore) (prev : AuthState User) (c : SignupCredentials)
    (t : Nat) (w : WriteOutcome) : OpResult :=
  let s1 : AuthState User := { prev with isLoading := true }
  if c.email = [] ∨ c.password = [] ∨ c.name = [] then
    let s2 : AuthState User := { s1 with isLoading := false }
    ⟨st, s2, ⟨false, none, some (str "All fields are required")⟩, [s1, s2]⟩
  else if ¬ jsIncludes '@' c.email then
    let s2 : AuthState User := { s1 with isLoading := false }
    ⟨st, s2, ⟨false, none, some (str "Please enter a valid email")⟩, [s1, s2]⟩
  else if c.password.length < 6 then
    let s2 : AuthState User := { s1 with isLoading := false }
    ⟨st, s2, ⟨false, none, some (str "Password must be at least 6 characters")⟩, [s1, s2]⟩
  else
    let u : User := ⟨jsNatRepr t, c.email, c.name⟩
    let s2 : AuthState User := ⟨some u, false, true, false⟩
    ⟨saveUserToStorage st u w, s2, ⟨true, some u, none⟩, [s1, s2]⟩

/-- `logout`: `clearAuthStorage()` (its failure swallowed), then an
unconditional reset to the logged-out state. Returns the store and the
state afterwards; there is no error channel. -/
def logout (st : KVStore) (w : WriteOutcome) : KVStore × AuthState User :=
  (clearAuthStorage st w, ⟨none, false, false, false⟩)

/-! ## The UI-layer signup validator (`SignupScreen.validateForm`) -/

/-- The name rule of `SignupScreen.validateForm`: required after trimming,
and at least 2 characters after trimming. -/
def signupScreenNameError (name : JStr) : Option JStr :=
  if jsTrim name = [] then some (str "Name is required")
  else if (jsTrim name).length < 2 then
    some (str "Name must be at least 2 characters")
  else none

/-! ## Preference Store (`ThemeContext.tsx`) -/

/-- The two theme modes. -/
inductive ThemeName where
  | light
  | dark
deriving DecidableEq, Repr

/-- The literal persisted for each mode. -/
def ThemeName.toLiteral : ThemeName → JStr
  | .light => str "light"
  | .dark => str "dark"

/-- `ThemeState`: the current mode and the startup-restore loading flag. -/
structure ThemeState where
  theme : ThemeName
  isLoading : Bool
deriving DecidableEq, Repr

/-- The state `ThemeProvider` starts from: `light`, loading. -/
def initialThemeState : ThemeState := ⟨.light, true⟩

/-- The fixed preference key `@app_theme`. -/
def THEME_STORAGE_KEY : JStr := str "@app_theme"

/-- `loadTheme`: the one-time startup restore. A stored value is adopted
only when it is exactly `"light"` or `"dark"`; in every case (value,
absent, failure) the `finally` block clears `isLoading`. -/
def loadTheme (prev : ThemeState) (read : ReadOutcome) : ThemeState :=
  match read with
  | .failure => { prev with isLoading := false }
  | .absent => { prev with isLoading := false }
  | .value s =>
    if s = str "light" then { prev with theme := .light, isLoading := false }
    else if s = str "dark" then { prev with theme := .dark, isLoading := false }
    else { prev with isLoading := false }

/-- `saveTheme`: `setItem(THEME_STORAGE_KEY, newTheme)`, with any storage
error caught and swallowed. -/
def saveTheme (st : KVStore) (newTheme : ThemeName) (w : WriteOutcome) :
    KVStore :=
  match w with
  | .ok => kvSet st THEME_STORAGE_KEY newTheme.toLiteral
  | .failure => st

/-- `toggleTheme`: flips the mode (`theme === 'light' ? 'dark' : 'light'`),
sets it in memory, then persists the new value best-effort. -/
def toggleTheme (st : KVStore) (s : ThemeState) (w : WriteOutcome) :
    KVStore × ThemeState :=
  let newTheme : ThemeName := if s.theme = .light then .dark else .light
  (saveTheme st newTheme w, { s with theme := newTheme })

/-! ## The session-state invariant -/

/-- Invariant of claim C1: `isAuthenticated` holds exactly when a user is
present. -/
def authInvariant {U : Type} (s : AuthState U) : Prop :=
  s.isAuthenticated = s.user.isSome

instance {U : Type} (s : AuthState U) : Decidable (authInvariant s) := by
  unfold authInvariant; infer_instance

/-! ## Helper lemmas on the key-value store -/

theorem kvSet_read_same (st : KVStore) (k v : JStr) : kvSet st k v k = some v := by
  simp [kvSet]

theorem kvRemove_read_same (st : KVStore) (k : JStr) : kvRemove st k k = none := by
  simp [kvRemove]

theorem kvRemove_idem (st : KVStore) (k : JStr) :
    kvRemove (kvRemove st k) k = kvRemove st k := by
  funext k2
  by_cases h : k2 = k <;> simp [kvRemove, h]

/-! ## Theorems for the claims -/

/-- C3: every startup restore terminates with its flag cleared: for every
read outcome the Session Store's restore ends with `isInitializing = false`
and the Preference Store's restore ends with `isLoading = false`; on a read
failure the Session Store resolves from the initial state to the
unauthenticated state and the Preference Store keeps the default light
mode. -/
theorem restore_always_clears_flags :
    (∀ (prev : AuthState JsonValue) (read : ReadOutcome) (parse : ParseOracle),
      (initializeAuth prev read parse).isInitializing = false) ∧
    (∀ (prev : ThemeState) (read : ReadOutcome),
      (loadTheme prev read).isLoading = false) ∧
    (∀ parse : ParseOracle,
      initializeAuth (initialAuthState JsonValue) ReadOutcome.failure parse
        = ⟨none, false, false, false⟩) ∧
    loadTheme initialThemeState ReadOutcome.failure
      = ⟨ThemeName.light, false⟩ := by
  refine ⟨?_, ?_, fun parse => rfl, rfl⟩
  · intro prev read parse
    unfold initializeAuth
    cases loadUserFromStorage read parse with
    | none => rfl
    | some v => by_cases h : v.truthy <;> simp [h]
  · intro prev read
    cases read with
    | failure => rfl
    | absent => rfl
    | value s =>
      simp only [loadTheme]
      split
      · rfl
      · split <;> rfl

/-- C4: `logout` never surfaces an error and, for every write outcome,
unconditionally resets the session state to the logged-out state; a
successful removal leaves the auth key absent; a second logout is safe (same
state, same store); and a restore performed after logout reads the absent
key and yields `isAuthenticated = false`. -/
theorem logout_always_resets :
    (∀ (st : KVStore) (w : WriteOutcome),
      (logout st w).2 = ⟨none, false, false, false⟩) ∧
    (∀ st : KVStore, (logout st .ok).1 AUTH_USER_KEY = none) ∧
    (∀ (st : KVStore) (w1 w2 : WriteOutcome),
      (logout (logout st w1).1 w2).2 = (logout st w1).2) ∧
    (∀ st : KVStore, (logout (logout st .ok).1 .ok).1 = (logout st .ok).1) ∧
    (∀ (st : KVStore) (parse : ParseOracle),
      (initializeAuth (initialAuthState JsonValue)
          (readKey (logout st .ok).1 AUTH_USER_KEY) parse).isAuthenticated
        = false) := by
  refine ⟨fun st w => rfl, ?_, fun st w1 w2 => rfl, ?_, ?_⟩
  · intro st
    simp [logout, clearAuthStorage, removeUserFromStorage, kvRemove_read_same]
  · intro st
    simp [logout, clearAuthStorage, removeUserFromStorage, kvRemove_idem]
  · intro st parse
    have h : readKey (logout st .ok).1 AUTH_USER_KEY = ReadOutcome.absent := by
      simp [readKey, logout, clearAuthStorage, removeUserFromStorage,
        kvRemove_read_same]
    rw [h]
    rfl

/-- C7: `toggleTheme` is an involution on the in-memory mode (two toggles
restore it, under any write outcomes); one toggle always flips the mode to
the other value; and after a successful persist the stored value under the
theme key is the literal of the new in-memory mode. -/
theorem toggle_involution :
    (∀ (st : KVStore) (s : ThemeState) (w1 w2 : WriteOutcome),
      (toggleTheme (toggleTheme st s w1).1 (toggleTheme st s w1).2 w2).2.theme
        = s.theme) ∧
    (∀ (st : KVStore) (s : ThemeState) (w : WriteOutcome),
      (toggleTheme st s w).2.theme ≠ s.theme) ∧
    (∀ (st : KVStore) (s : ThemeState),
      (toggleTheme st s .ok).1 THEME_STORAGE_KEY
        = some (toggleTheme st s .ok).2.theme.toLiteral) := by
  refine ⟨?_, ?_, ?_⟩
  · intro st s w1 w2
    cases h : s.theme <;> simp [toggleTheme, h]
  · intro st s w
    cases h : s.theme <;> simp [toggleTheme, h]
  · intro st s
    cases h : s.theme <;>
      simp [toggleTheme, h, saveTheme, kvSet_read_same]

/-- C1: the invariant `isAuthenticated == (user is present)` holds in the
initial session state and is preserved by the startup restore, by every
`login` and `signup` call (successful or failed), and by `logout`. -/
theorem session_invariant_preserved :
    (∀ U : Type, authInvariant (initialAuthState U)) ∧
    (∀ (prev : AuthState JsonValue) (read : ReadOutcome) (parse : ParseOracle),
      authInvariant prev → authInvariant (initializeAuth prev read parse)) ∧
    (∀ (st : KVStore) (prev : AuthState User) (c : LoginCredentials)
        (t : Nat) (w : WriteOutcome),
      authInvariant prev → authInvariant (login st prev c t w).state) ∧
    (∀ (st : KVStore) (prev : AuthState User) (c : SignupCredentials)
        (t : Nat) (w : WriteOutcome),
      authInvariant prev → authInvariant (signup st prev c t w).state) ∧
    (∀ (st : KVStore) (w : WriteOutcome), authInvariant (logout st w).2) := by
  refine ⟨fun U => rfl, ?_, ?_, ?_, fun st w => rfl⟩
  · intro prev read parse h
    unfold initializeAuth
    cases loadUserFromStorage read parse with
    | none => exact h
    | some v =>
      by_cases hv : v.truthy
      · simp [hv, authInvariant]
      · simpa [hv, authInvariant] using h
  · intro st prev c t w h
    simp only [login]
    split
    · exact h
    · split
      · exact h
      · rfl
  · intro st prev c t w h
    simp only [signup]
    split
    · exact h
    · split
      · exact h
      · split
        · exact h
        · rfl

/-- Witness for C1: the invariant after a concrete successful login from
the (invariant-satisfying) resolved initial state. -/
theorem session_invariant_preserved_witness :
    authInvariant (login kvEmpty (initialAuthState User)
      ⟨str "a@b.com", str "x"⟩ 0 .ok).state :=
  session_invariant_preserved.2.2.1 kvEmpty (initialAuthState User)
    ⟨str "a@b.com", str "x"⟩ 0 .ok (by decide)

/-- Counterexample to C2 as stated: for the invalid input
`{ email: "", password: "" }` called from a settled state, the first state
the call publishes has `isLoading = true`, which differs from the pre-call
state — so the call does set `isLoading` and the session state does not
stay equal to the pre-call state at every point during the call. -/
theorem login_validation_sets_isLoading_counterexample :
    (login kvEmpty ⟨none, false, false, false⟩ ⟨[], []⟩ 0 .ok).trace
      = [⟨none, true, false, false⟩, ⟨none, false, false, false⟩] ∧
    (⟨none, true, false, false⟩ : AuthState User)
      ≠ ⟨none, false, false, false⟩ := by
  exact ⟨rfl, by decide⟩

/-- C2 (amended): for every invalid login input (empty email, empty
password, or email without `'@'`), `login` returns `success = false` with
one of the two human-readable validation messages, performs no storage
write, and leaves `user`, `isAuthenticated` and `isInitializing` unchanged;
however `isLoading` is set to `true` at the start of the call and reset to
`false` before returning, so the post-call state equals the pre-call state
exactly when `isLoading` was already `false` before the call. -/
theorem login_validation_failure_frame :
    ∀ (st : KVStore) (prev : AuthState User) (c : LoginCredentials)
      (t : Nat) (w : WriteOutcome),
      (c.email = [] ∨ c.password = [] ∨ ¬ jsIncludes '@' c.email) →
      (login st prev c t w).response.success = false ∧
      ((login st prev c t w).response.error
          = some (str "Email and password are required") ∨
        (login st prev c t w).response.error
          = some (str "Please enter a valid email")) ∧
      (login st prev c t w).store = st ∧
      (login st prev c t w).state = { prev with isLoading := false } ∧
      (login st prev c t w).trace
        = [{ prev with isLoading := true }, { prev with isLoading := false }] := by
  intro st prev c t w h
  simp only [login]
  split
  · exact ⟨rfl, Or.inl rfl, rfl, rfl, rfl⟩
  · split
    · exact ⟨rfl, Or.inr rfl, rfl, rfl, rfl⟩
    · rename_i h1 h2
      rcases h with h | h | h
      · exact absurd (Or.inl h) h1
      · exact absurd (Or.inr h) h1
      · exact absurd h2 (by simpa using h)

/-- Witness for C2 (amended): the empty-email input from the resolved
initial state. -/
theorem login_validation_failure_frame_witness :
    (login kvEmpty ⟨none, false, false, false⟩ ⟨[], str "x"⟩ 0 .ok).response.success
        = false ∧
    ((login kvEmpty ⟨none, false, false, false⟩ ⟨[], str "x"⟩ 0 .ok).response.error
        = some (str "Email and password are required") ∨
      (login kvEmpty ⟨none, false, false, false⟩ ⟨[], str "x"⟩ 0 .ok).response.error
        = some (str "Please enter a valid email")) ∧
    (login kvEmpty ⟨none, false, false, false⟩ ⟨[], str "x"⟩ 0 .ok).store = kvEmpty ∧
    (login kvEmpty ⟨none, false, false, false⟩ ⟨[], str "x"⟩ 0 .ok).state
      = ⟨none, false, false, false⟩ ∧
    (login kvEmpty ⟨none, false, false, false⟩ ⟨[], str "x"⟩ 0 .ok).trace
      = [⟨none, true, false, false⟩, ⟨none, false, false, false⟩] :=
  login_validation_failure_frame kvEmpty ⟨none, false, false, false⟩
    ⟨[], str "x"⟩ 0 .ok (Or.inl rfl)

/-- C5: for every well-formed login input (non-empty email containing `'@'`,
non-empty password), `login` succeeds and the returned user carries the
input email and, as its name, the part of the email before the first `'@'`;
the resulting state holds that same user with `isAuthenticated = true` and
`isLoading = false`. In particular `{ email: "a@b.com", password: "x" }`
yields a user with email `"a@b.com"` and name `"a"`. -/
theorem login_wellformed_success :
    (∀ (st : KVStore) (prev : AuthState User) (c : LoginCredentials)
        (t : Nat) (w : WriteOutcome),
      c.email ≠ [] → c.password ≠ [] → jsIncludes '@' c.email = true →
      (login st prev c t w).response.success = true ∧
      (login st prev c t w).response.user.map User.email = some c.email ∧
      (login st prev c t w).response.user.map User.name
        = some (c.email.takeWhile (fun ch => ch != '@')) ∧
      (login st prev c t w).state.user = (login st prev c t w).response.user ∧
      (login st prev c t w).state.isAuthenticated = true ∧
      (login st prev c t w).state.isLoading = false) ∧
    ((login kvEmpty (initialAuthState User) ⟨str "a@b.com", str "x"⟩ 0
        .ok).response.success = true ∧
      (login kvEmpty (initialAuthState User) ⟨str "a@b.com", str "x"⟩ 0
        .ok).response.user.map User.email = some (str "a@b.com") ∧
      (login kvEmpty (initialAuthState User) ⟨str "a@b.com", str "x"⟩ 0
        .ok).response.user.map User.name = some (str "a")) := by
  constructor
  · intro st prev c t w he hp ha
    have h1 : ¬ (c.email = [] ∨ c.password = []) := by
      rintro (h | h)
      · exact he h
      · exact hp h
    simp [login, if_neg h1, ha, jsSplitFirst]
  · exact ⟨rfl, rfl, by decide⟩

/-- Witness for C5: the concrete well-formed input from the spec example. -/
theorem login_wellformed_success_witness :
    (login kvEmpty (initialAuthState User) ⟨str "a@b.com", str "x"⟩ 0
        .ok).response.success = true ∧
    (login kvEmpty (initialAuthState User) ⟨str "a@b.com", str "x"⟩ 0
        .ok).response.user.map User.email = some (str "a@b.com") ∧
    (login kvEmpty (initialAuthState User) ⟨str "a@b.com", str "x"⟩ 0
        .ok).response.user.map User.name
      = some ((str "a@b.com").takeWhile (fun ch => ch != '@')) ∧
    (login kvEmpty (initialAuthState User) ⟨str "a@b.com", str "x"⟩ 0
        .ok).state.user
      = (login kvEmpty (initialAuthState User) ⟨str "a@b.com", str "x"⟩ 0
        .ok).response.user ∧
    (login kvEmpty (initialAuthState User) ⟨str "a@b.com", str "x"⟩ 0
        .ok).state.isAuthenticated = true ∧
    (login kvEmpty (initialAuthState User) ⟨str "a@b.com", str "x"⟩ 0
        .ok).state.isLoading = false :=
  login_wellformed_success.1 kvEmpty (initialAuthState User)
    ⟨str "a@b.com", str "x"⟩ 0 .ok (by decide) (by decide) (by decide)

/-- Counterexample to C6 as stated: the signup input
`{ name: "Jo", email: "a@b.com", password: "" }` has password length `0 < 6`
with name and email present and well-formed, yet the error message returned
is the generic `"All fields are required"`, not a length-related one (the
only length-related message the code can produce is
`"Password must be at least 6 characters"`). -/
theorem signup_short_password_message_counterexample :
    ([] : JStr).length < 6 ∧
    (signup kvEmpty (initialAuthState User) ⟨str "Jo", str "a@b.com", []⟩ 0
        .ok).response.success = false ∧
    (signup kvEmpty (initialAuthState User) ⟨str "Jo", str "a@b.com", []⟩ 0
        .ok).response.error = some (str "All fields are required") ∧
    (str "All fields are required" : JStr)
      ≠ str "Password must be at least 6 characters" := by
  refine ⟨by decide, rfl, rfl, by decide⟩

/-- C6 (amended): for every signup input with name and email present and
well-formed and password of length `< 6`, `signup` returns
`success = false` and leaves `user` and `isAuthenticated` unchanged; the
message is the length-related `"Password must be at least 6 characters"`
whenever the password is non-empty, and the generic
`"All fields are required"` when the password is empty. -/
theorem signup_short_password_rejected :
    ∀ (st : KVStore) (prev : AuthState User) (c : SignupCredentials)
      (t : Nat) (w : WriteOutcome),
      c.name ≠ [] → c.email ≠ [] → jsIncludes '@' c.email = true →
      c.password.length < 6 →
      (signup st prev c t w).response.success = false ∧
      (signup st prev c t w).response.error
        = some (if c.password = [] then str "All fields are required"
            else str "Password must be at least 6 characters") ∧
      (signup st prev c t w).state.user = prev.user ∧
      (signup st prev c t w).state.isAuthenticated = prev.isAuthenticated := by
  intro st prev c t w hn he ha hlen
  by_cases hp : c.password = []
  · have h1 : c.email = [] ∨ c.password = [] ∨ c.name = [] := Or.inr (Or.inl hp)
    simp [signup, if_pos h1, if_pos hp]
  · have h1 : ¬ (c.email = [] ∨ c.password = [] ∨ c.name = []) := by
      rintro (h | h | h)
      · exact he h
      · exact hp h
      · exact hn h
    simp [signup, if_neg h1, ha, if_pos hlen, if_neg hp]

/-- Witness for C6 (amended): a non-empty three-character password. -/
theorem signup_short_password_rejected_witness :
    (signup kvEmpty (initialAuthState User) ⟨str "Jo", str "a@b.com", str "abc"⟩
        0 .ok).response.success = false ∧
    (signup kvEmpty (initialAuthState User) ⟨str "Jo", str "a@b.com", str "abc"⟩
        0 .ok).response.error
      = some (if (str "abc" : JStr) = [] then str "All fields are required"
          else str "Password must be at least 6 characters") ∧
    (signup kvEmpty (initialAuthState User) ⟨str "Jo", str "a@b.com", str "abc"⟩
        0 .ok).state.user = (initialAuthState User).user ∧
    (signup kvEmpty (initialAuthState User) ⟨str "Jo", str "a@b.com", str "abc"⟩
        0 .ok).state.isAuthenticated = (initialAuthState User).isAuthenticated :=
  signup_short_password_rejected kvEmpty (initialAuthState User)
    ⟨str "Jo", str "a@b.com", str "abc"⟩ 0 .ok (by decide) (by decide)
    (by decide) (by decide)

/-- Counterexample to C8 as stated: the name `"J"` trims to length `1 < 2`,
and the UI-layer validator rejects it, yet the Session Store's `signup`
accepts the input `{ name: "J", email: "a@b.com", password: "abcdef" }` with
`success = true` — the store does not enforce the trimmed minimum-length-2
name rule. -/
theorem signup_name_rule_counterexample :
    (jsTrim (str "J")).length < 2 ∧
    (signupScreenNameError (str "J")).isSome = true ∧
    (signup kvEmpty (initialAuthState User)
        ⟨str "J", str "a@b.com", str "abcdef"⟩ 0 .ok).response.success
      = true ∧
    (signup kvEmpty (initialAuthState User)
        ⟨str "J", str "a@b.com", str "abcdef"⟩ 0 .ok).state.isAuthenticated
      = true := by
  refine ⟨by decide, by decide, rfl, rfl⟩

/-- C8 (amended): the Session Store's signup name check only requires the
name to be non-empty (part of the all-fields-required check): an empty name
fails with `success = false` before `user` or `isAuthenticated` change,
while any non-empty name — even one the UI validator's trimmed
minimum-length-2 rule rejects — passes the store's check (so the two
validators do not agree on the name predicate). -/
theorem signup_name_nonempty_only :
    (∀ (st : KVStore) (prev : AuthState User) (c : SignupCredentials)
        (t : Nat) (w : WriteOutcome),
      c.name = [] →
      (signup st prev c t w).response.success = false ∧
      (signup st prev c t w).state.user = prev.user ∧
      (signup st prev c t w).state.isAuthenticated = prev.isAuthenticated) ∧
    (∀ (st : KVStore) (prev : AuthState User) (c : SignupCredentials)
        (t : Nat) (w : WriteOutcome),
      c.name ≠ [] → c.email ≠ [] → jsIncludes '@' c.email = true →
      6 ≤ c.password.length →
      (signup st prev c t w).response.success = true) := by
  constructor
  · intro st prev c t w hn
    have h1 : c.email = [] ∨ c.password = [] ∨ c.name = [] := Or.inr (Or.inr hn)
    simp [signup, if_pos h1]
  · intro st prev c t w hn he ha hlen
    have h1 : ¬ (c.email = [] ∨ c.password = [] ∨ c.name = []) := by
      rintro (h | h | h)
      · exact he h
      · rw [h] at hlen
        exact absurd hlen (by decide)
      · exact hn h
    have h3 : ¬ (c.password.length < 6) := by omega
    simp [signup, if_neg h1, ha, if_neg h3]

/-- Witness for C8 (amended): the empty name is rejected by the store. -/
theorem signup_name_nonempty_only_witness :
    (signup kvEmpty (initialAuthState User) ⟨[], str "a@b.com", str "abcdef"⟩
        0 .ok).response.success = false ∧
    (signup kvEmpty (initialAuthState User) ⟨[], str "a@b.com", str "abcdef"⟩
        0 .ok).state.user = (initialAuthState User).user ∧
    (signup kvEmpty (initialAuthState User) ⟨[], str "a@b.com", str "abcdef"⟩
        0 .ok).state.isAuthenticated = (initialAuthState User).isAuthenticated :=
  signup_name_nonempty_only.1 kvEmpty (initialAuthState User)
    ⟨[], str "a@b.com", str "abcdef"⟩ 0 .ok rfl

/-! ## Injectivity of the decimal id rendering -/

theorem decDigitsAux_eq_digits :
    ∀ (fuel n : Nat), n ≤ fuel → decDigitsAux fuel n = Nat.digits 10 n := by
  intro fuel
  induction fuel with
  | zero =>
    intro n hn
    have h0 : n = 0 := Nat.le_zero.mp hn
    subst h0
    simp [decDigitsAux, Nat.digits_zero]
  | succ f ih =>
    intro n hn
    by_cases h : n = 0
    · subst h
      simp [decDigitsAux, Nat.digits_zero]
    · rw [decDigitsAux, if_neg h,
        Nat.digits_def' (by norm_num : (1 : Nat) < 10) (Nat.pos_of_ne_zero h)]
      have hdiv : n / 10 < n := Nat.div_lt_self (Nat.pos_of_ne_zero h) (by norm_num)
      exact congrArg (n % 10 :: ·) (ih (n / 10) (by omega))

theorem digitChar_inj_lt10 {a b : Nat} (ha : a < 10) (hb : b < 10)
    (h : Nat.digitChar a = Nat.digitChar b) : a = b := by
  have key : ∀ x y : Fin 10, Nat.digitChar x.val = Nat.digitChar y.val → x = y := by
    decide
  have := key ⟨a, ha⟩ ⟨b, hb⟩ h
  simpa using congrArg Fin.val this

theorem map_digitChar_inj :
    ∀ (l1 l2 : List Nat), (∀ x ∈ l1, x < 10) → (∀ x ∈ l2, x < 10) →
      l1.map Nat.digitChar = l2.map Nat.digitChar → l1 = l2 := by
  intro l1
  induction l1 with
  | nil =>
    intro l2 _ _ h
    cases l2 with
    | nil => rfl
    | cons b m => simp at h
  | cons a l ih =>
    intro l2 h1 h2 h
    cases l2 with
    | nil => simp at h
    | cons b m =>
      simp only [List.map_cons, List.cons.injEq] at h
      have hab : a = b :=
        digitChar_inj_lt10 (h1 a (List.mem_cons_self a l))
          (h2 b (List.mem_cons_self b m)) h.1
      subst hab
      exact congrArg (a :: ·)
        (ih m (fun x hx => h1 x (List.mem_cons_of_mem a hx))
          (fun x hx => h2 x (List.mem_cons_of_mem a hx)) h.2)

theorem jsNatRepr_injective : Function.Injective jsNatRepr := by
  have bound : ∀ n : Nat, ∀ x ∈ (Nat.digits 10 n).reverse, x < 10 := by
    intro n x hx
    exact Nat.digits_lt_base (by norm_num) (List.mem_reverse.mp hx)
  have nonzero_ne : ∀ n : Nat, n ≠ 0 →
      ((Nat.digits 10 n).reverse.map Nat.digitChar) ≠ ['0'] := by
    intro n hn hcontra
    have h0 : ([0] : List Nat).map Nat.digitChar = ['0'] := by decide
    have hrev : (Nat.digits 10 n).reverse = [0] :=
      map_digitChar_inj _ _ (bound n) (by simp) (hcontra.trans h0.symm)
    have hd : Nat.digits 10 n = [0] := by
      have := congrArg List.reverse hrev
      simpa using this
    have : n = 0 := by
      conv_lhs => rw [← Nat.ofDigits_digits 10 n]
      rw [hd]
      simp [Nat.ofDigits]
    exact hn this
  intro m n h
  unfold jsNatRepr at h
  by_cases hm : m = 0 <;> by_cases hn : n = 0
  · omega
  · rw [if_pos hm, if_neg hn, decDigitsAux_eq_digits n n le_rfl] at h
    exact absurd h.symm (nonzero_ne n hn)
  · rw [if_neg hm, if_pos hn, decDigitsAux_eq_digits m m le_rfl] at h
    exact absurd h (nonzero_ne m hm)
  · rw [if_neg hm, if_neg hn, decDigitsAux_eq_digits m m le_rfl,
      decDigitsAux_eq_digits n n le_rfl] at h
    have hrev := map_digitChar_inj _ _ (bound m) (bound n) h
    have hdig : Nat.digits 10 m = Nat.digits 10 n := by
      have := congrArg List.reverse hrev
      simpa using this
    exact Nat.digits_inj_iff.mp hdig

/-- The id of any user returned by a successful `login` is the decimal
rendering of the clock value read during that call. -/
theorem login_user_id (st : KVStore) (p : AuthState User)
    (c : LoginCredentials) (t : Nat) (w : WriteOutcome) (u : User) :
    (login st p c t w).response.user = some u → u.id = jsNatRepr t := by
  simp only [login]
  split
  · intro h
    simp at h
  · split
    · intro h
      simp at h
    · intro h
      simp only [Option.some.injEq] at h
      rw [← h]

/-- The id of any user returned by a successful `signup` is the decimal
rendering of the clock value read during that call. -/
theorem signup_user_id (st : KVStore) (p : AuthState User)
    (c : SignupCredentials) (t : Nat) (w : WriteOutcome) (u : User) :
    (signup st p c t w).response.user = some u → u.id = jsNatRepr t := by
  simp only [signup]
  split
  · intro h
    simp at h
  · split
    · intro h
      simp at h
    · split
      · intro h
        simp at h
      · intro h
        simp only [Option.some.injEq] at h
        rw [← h]

/-- Counterexample to C9 as stated: two distinct successful operations — a
login and a signup, producing two different user records — performed at the
same clock value (`Date.now()` returning 5 in both) are given the very same
id `"5"`; ids are not unique per operation. -/
theorem fresh_id_counterexample :
    (login kvEmpty (initialAuthState User) ⟨str "a@b.com", str "x"⟩ 5
        .ok).response.success = true ∧
    (signup kvEmpty (initialAuthState User)
        ⟨str "Jo", str "jo@x.com", str "abcdef"⟩ 5 .ok).response.success
      = true ∧
    (login kvEmpty (initialAuthState User) ⟨str "a@b.com", str "x"⟩ 5
        .ok).response.user.map User.id
      = (signup kvEmpty (initialAuthState User)
          ⟨str "Jo", str "jo@x.com", str "abcdef"⟩ 5 .ok).response.user.map
          User.id ∧
    (login kvEmpty (initialAuthState User) ⟨str "a@b.com", str "x"⟩ 5
        .ok).response.user
      ≠ (signup kvEmpty (initialAuthState User)
          ⟨str "Jo", str "jo@x.com", str "abcdef"⟩ 5 .ok).response.user := by
  exact ⟨rfl, rfl, by decide, by decide⟩

/-- C9 (amended): the id generator is the millisecond clock rendered in
decimal, so the ids of the user records produced by two successful
operations (login or signup) are distinct whenever the two operations read
distinct `Date.now()` values; two operations reading the same clock value
share an id. -/
theorem distinct_clock_distinct_ids :
    (∀ (st1 st2 : KVStore) (p1 p2 : AuthState User)
        (c1 c2 : LoginCredentials) (t1 t2 : Nat) (w1 w2 : WriteOutcome)
        (u1 u2 : User),
      t1 ≠ t2 →
      (login st1 p1 c1 t1 w1).response.user = some u1 →
      (login st2 p2 c2 t2 w2).response.user = some u2 →
      u1.id ≠ u2.id) ∧
    (∀ (st1 st2 : KVStore) (p1 p2 : AuthState User) (c1 : LoginCredentials)
        (c2 : SignupCredentials) (t1 t2 : Nat) (w1 w2 : WriteOutcome)
        (u1 u2 : User),
      t1 ≠ t2 →
      (login st1 p1 c1 t1 w1).response.user = some u1 →
      (signup st2 p2 c2 t2 w2).response.user = some u2 →
      u1.id ≠ u2.id) ∧
    (∀ (st1 st2 : KVStore) (p1 p2 : AuthState User)
        (c1 c2 : SignupCredentials) (t1 t2 : Nat) (w1 w2 : WriteOutcome)
        (u1 u2 : User),
      t1 ≠ t2 →
      (signup st1 p1 c1 t1 w1).response.user = some u1 →
      (signup st2 p2 c2 t2 w2).response.user = some u2 →
      u1.id ≠ u2.id) := by
  refine ⟨?_, ?_, ?_⟩
  · intro st1 st2 p1 p2 c1 c2 t1 t2 w1 w2 u1 u2 ht h1 h2 hid
    rw [login_user_id st1 p1 c1 t1 w1 u1 h1,
      login_user_id st2 p2 c2 t2 w2 u2 h2] at hid
    exact ht (jsNatRepr_injective hid)
  · intro st1 st2 p1 p2 c1 c2 t1 t2 w1 w2 u1 u2 ht h1 h2 hid
    rw [login_user_id st1 p1 c1 t1 w1 u1 h1,
      signup_user_id st2 p2 c2 t2 w2 u2 h2] at hid
    exact ht (jsNatRepr_injective hid)
  · intro st1 st2 p1 p2 c1 c2 t1 t2 w1 w2 u1 u2 ht h1 h2 hid
    rw [signup_user_id st1 p1 c1 t1 w1 u1 h1,
      signup_user_id st2 p2 c2 t2 w2 u2 h2] at hid
    exact ht (jsNatRepr_injective hid)

/-- Witness for C9 (amended): a login at clock 0 and a signup at clock 1
produce users with different ids. -/
theorem distinct_clock_distinct_ids_witness :
    (⟨str "0", str "a@b.com", str "a"⟩ : User).id
      ≠ (⟨str "1", str "jo@x.com", str "Jo"⟩ : User).id :=
  distinct_clock_distinct_ids.2.1 kvEmpty kvEmpty (initialAuthState User)
    (initialAuthState User) ⟨str "a@b.com", str "x"⟩
    ⟨str "Jo", str "jo@x.com", str "abcdef"⟩ 0 1 .ok .ok
    ⟨str "0", str "a@b.com", str "a"⟩ ⟨str "1", str "jo@x.com", str "Jo"⟩
    (by decide) (by decide) (by decide)

/-- C10: the startup restore performs no shape validation on the stored
record: from the initial state, any stored non-empty string that parses to
a truthy JSON value — of any shape, not only a user object — is adopted
wholesale as the user with `isAuthenticated = true`; a parse error, an
absent key, or a falsy parsed value resolves to the unauthenticated
state. -/
theorem restore_adopts_any_truthy_json :
    (∀ (s : JStr) (parse : ParseOracle) (v : JsonValue),
      s ≠ [] → parse s = .ok v → v.truthy = true →
      initializeAuth (initialAuthState JsonValue) (.value s) parse
        = ⟨some v, false, true, false⟩) ∧
    (∀ (s : JStr) (parse : ParseOracle),
      s ≠ [] → parse s = .error →
      initializeAuth (initialAuthState JsonValue) (.value s) parse
        = ⟨none, false, false, false⟩) ∧
    (∀ parse : ParseOracle,
      initializeAuth (initialAuthState JsonValue) .absent parse
        = ⟨none, false, false, false⟩) ∧
    (∀ (s : JStr) (parse : ParseOracle) (v : JsonValue),
      s ≠ [] → parse s = .ok v → v.truthy = false →
      initializeAuth (initialAuthState JsonValue) (.value s) parse
        = ⟨none, false, false, false⟩) := by
  refine ⟨?_, ?_, fun parse => rfl, ?_⟩
  · intro s parse v hs hp ht
    simp [initializeAuth, loadUserFromStorage, hs, hp, ht, initialAuthState]
  · intro s parse hs hp
    simp [initializeAuth, loadUserFromStorage, hs, hp, initialAuthState]
  · intro s parse v hs hp ht
    simp [initializeAuth, loadUserFromStorage, hs, hp, ht, initialAuthState]

/-- Witness for C10: a stored string `"7"` whose parse yields the truthy
JSON number `7` is adopted as the user. -/
theorem restore_adopts_any_truthy_json_witness :
    initializeAuth (initialAuthState JsonValue) (.value (str "7"))
        (fun s => if s = str "7" then .ok (.num 7) else .error)
      = ⟨some (.num 7), false, true, false⟩ :=
  restore_adopts_any_truthy_json.1 (str "7")
    (fun s => if s = str "7" then .ok (.num 7) else .error) (.num 7)
    (by decide) (by simp) rfl

end AuthAmar
